import Mathlib

/-!
Shallow embedding of `yf_to_db.py` (class `FinancialDataFetcher`) and the parts of
`yf_to_df_folder.py` relevant to the claims.

Modelling conventions:
* Python strings are Lean `String`s; the Python `str` methods used by the source
  (`split`, `strip`, `upper`, `endswith`) are modelled by executable functions over
  the character list, matching Python's semantics on the inputs that occur.
* A pandas cell value is a `Value`: a finite rational, `posInf`/`negInf`
  (the IEEE infinities `np.inf`/`-np.inf`), a string, or `absent` (NaN / None /
  missing).  `pd.to_numeric(x, errors='coerce')` is `to_numeric_value` and
  `.replace([np.inf, -np.inf], np.nan)` is `scrub_nonfinite`.
* A row of the equity DataFrame is a `Row`: the `Ticker` index value plus the
  named columns.  A DataFrame is a `List Row` in row order.
* The store file at `equity_file` is a `FileState`: `missing` (path does not
  exist), or a file whose content either parses as a `Ticker`-indexed table
  (`CsvContent.table`) or does not (`CsvContent.corrupt` — `pd.read_csv` raises).
  `_update_csv_file` becomes a function from `FileState` to
  `Except String FileState`: `.ok fs` is the state after the call, `.error e`
  means the call raised and the file was not written (the input state persists).
* The remote lookup `get_ticker_info` is an external collaborator; it is a
  parameter `lookup : String → Outcome` where `Outcome.ok r` is a fetched record
  and `Outcome.err sym msg` the error Series `{'Ticker': sym, 'Error': msg}`.
-/

instance {ε α : Type} [DecidableEq ε] [DecidableEq α] : DecidableEq (Except ε α) :=
  fun a b =>
    match a, b with
    | Except.ok x, Except.ok y =>
        if h : x = y then isTrue (by rw [h])
        else isFalse (by intro c; injection c; contradiction)
    | Except.error x, Except.error y =>
        if h : x = y then isTrue (by rw [h])
        else isFalse (by intro c; injection c; contradiction)
    | Except.ok _, Except.error _ => isFalse (fun c => Except.noConfusion c)
    | Except.error _, Except.ok _ => isFalse (fun c => Except.noConfusion c)

/-- Python `s.upper()` (ASCII-relevant part, as used on ticker tokens). -/
def py_upper (s : String) : String := String.mk (s.data.map Char.toUpper)

/-- Python `s.strip()`: remove leading and trailing whitespace. -/
def py_strip (s : String) : String :=
  String.mk (((s.data.dropWhile Char.isWhitespace).reverse.dropWhile
    Char.isWhitespace).reverse)

/-- Python `s.split(',')`: split on every comma; the empty string yields `[""]`. -/
def py_split_comma (s : String) : List String :=
  (s.data.foldr
    (fun c acc =>
      if c = ',' then [] :: acc
      else
        match acc with
        | [] => [[c]]
        | cur :: rest => (c :: cur) :: rest)
    [[]]).map String.mk

/-- Python `s.endswith('.csv')`. -/
def py_endswith_csv (s : String) : Bool := List.isSuffixOf ".csv".data s.data

/-- A pandas cell value. -/
inductive Value where
  | num (q : ℚ)
  | posInf
  | negInf
  | str (s : String)
  | absent
deriving DecidableEq, Repr

/-- Digits to the natural number they denote in base 10. -/
def digits_to_nat (l : List Char) : ℕ := l.foldl (fun a c => a * 10 + (c.toNat - 48)) 0

/-- Decimal literals accepted by numeric coercion: digits with an optional
fractional part (at least one digit overall). -/
def parse_unsigned (l : List Char) : Option ℚ :=
  let intPart := l.takeWhile Char.isDigit
  let rest := l.dropWhile Char.isDigit
  match rest with
  | [] => if intPart.isEmpty then none else some (digits_to_nat intPart : ℚ)
  | '.' :: frac =>
      if frac.all Char.isDigit && !(intPart.isEmpty && frac.isEmpty) then
        some ((digits_to_nat intPart : ℚ) + (digits_to_nat frac : ℚ) / (10 : ℚ) ^ frac.length)
      else none
  | _ => none

/-- String-to-number conversion performed by `pd.to_numeric` on textual cells:
an optional sign followed by a decimal literal or an infinity spelling. -/
def parse_numeric (s : String) : Option Value :=
  let t := (py_strip s).data
  let signed : Bool × List Char :=
    match t with
    | '-' :: r => (true, r)
    | '+' :: r => (false, r)
    | r => (false, r)
  let core := String.mk (signed.2.map Char.toLower)
  if core = "inf" ∨ core = "infinity" then
    some (if signed.1 then Value.negInf else Value.posInf)
  else
    match parse_unsigned signed.2 with
    | some q => some (Value.num (if signed.1 then -q else q))
    | none => none

/-- Elementwise `pd.to_numeric(x, errors='coerce')`: numbers (finite or
infinite) pass through, parseable strings convert, everything else becomes
NaN (`absent`). -/
def to_numeric_value : Value → Value
  | Value.num q => Value.num q
  | Value.posInf => Value.posInf
  | Value.negInf => Value.negInf
  | Value.absent => Value.absent
  | Value.str s =>
      match parse_numeric s with
      | some v => v
      | none => Value.absent

/-- Elementwise `.replace([np.inf, -np.inf], np.nan)`. -/
def scrub_nonfinite : Value → Value
  | Value.posInf => Value.absent
  | Value.negInf => Value.absent
  | v => v

/-- `self.numeric_columns` from `FinancialDataFetcher.__init__`. -/
def numeric_columns : List String :=
  ["Current Price", "Net Income", "Shares Outstanding", "Market Cap",
   "P/E Ratio (TTM)", "Earnings Growth", "Dividend Yield",
   "5 Yrs Avg Dividend Yield", "Profit Margin", "Return on Equity",
   "Debt to Equity", "Free Cash Flow", "Total Revenue", "Gross Profits",
   "ROA", "ROE", "EPS"]

/-- One row of a `Ticker`-indexed DataFrame: the index value and the named
columns. -/
structure Row where
  key : String
  fields : List (String × Value)
deriving DecidableEq, Repr

/-- The per-column body of `_convert_to_numeric`: a column named in
`numeric_columns` is coerced and infinity-scrubbed, any other column is left
alone (`if col in df.columns` restricts the loop to columns that exist). -/
def convert_entry (e : String × Value) : String × Value :=
  if e.1 ∈ numeric_columns then (e.1, scrub_nonfinite (to_numeric_value e.2)) else e

/-- `FinancialDataFetcher._convert_to_numeric`, restricted to one row. -/
def convert_to_numeric (r : Row) : Row := ⟨r.key, r.fields.map convert_entry⟩

/-- `FinancialDataFetcher._convert_to_numeric` over a whole DataFrame. -/
def convert_to_numeric_table (rows : List Row) : List Row :=
  rows.map convert_to_numeric

/-- Content of the store file: a parseable `Ticker`-indexed table, or content
on which `pd.read_csv(filename, index_col='Ticker')` raises. -/
inductive CsvContent where
  | table (rows : List Row)
  | corrupt (msg : String)
deriving DecidableEq, Repr

/-- State of the path `filename`: absent, or a file with the given content. -/
inductive FileState where
  | missing
  | file (content : CsvContent)
deriving DecidableEq, Repr

/-- The merge performed by `_update_csv_file` when the file exists and parses:
re-normalize the loaded rows, drop those whose index value occurs among the new
rows' index values (`~existing_df.index.isin(new_data.index)`), then
concatenate old-then-new (`pd.concat([existing_df, new_data])`). -/
def merged_rows (new_data : List Row) (existing : List Row) : List Row :=
  let kept := (convert_to_numeric_table existing).filter
    (fun r => !(decide (r.key ∈ new_data.map Row.key)))
  kept ++ new_data

/-- `FinancialDataFetcher._update_csv_file`.  `.ok` carries the file state
after `to_csv`; `.error` models the uncaught exception from `pd.read_csv`
(the function writes nothing in that case, so the input state persists). -/
def update_csv_file (new_data : List Row) : FileState → Except String FileState
  | FileState.missing => Except.ok (FileState.file (CsvContent.table new_data))
  | FileState.file (CsvContent.table rows) =>
      Except.ok (FileState.file (CsvContent.table (merged_rows new_data rows)))
  | FileState.file (CsvContent.corrupt msg) => Except.error msg

/-- One per-symbol outcome of `get_ticker_info`: a fetched record, or the
error Series `pd.Series({'Ticker': sym, 'Error': msg})` produced when the
remote call raised. -/
inductive Outcome where
  | ok (r : Row)
  | err (sym : String) (msg : String)
deriving DecidableEq, Repr

/-- `data.get('Security Type', 'N/A')` on a fetched record. -/
def security_type (r : Row) : Value :=
  (r.fields.lookup "Security Type").getD (Value.str "N/A")

/-- The classification test `security_type == 'EQUITY'`. -/
def is_equity (r : Row) : Bool := security_type r == Value.str "EQUITY"

/-- The classification loop of `fetch_and_save_ticker_data`, applied to the
sequence of per-symbol outcomes: the error branch appends the symbol to
`failed_tickers`, the EQUITY branch appends the record to `equity_data`, and
every other outcome appends the symbol to `non_equity_tickers`; each list keeps
input order. -/
def partition_outcomes : List Outcome → List Row × List String × List String
  | [] => ([], [], [])
  | Outcome.err sym _ :: rest =>
      let p := partition_outcomes rest
      (p.1, p.2.1, sym :: p.2.2)
  | Outcome.ok r :: rest =>
      let p := partition_outcomes rest
      if is_equity r then (r :: p.1, p.2.1, p.2.2)
      else (p.1, r.key :: p.2.1, p.2.2)

/-- The equity projection of one outcome (which records the loop stores in
`equity_data`). -/
def equity_of : Outcome → Option Row
  | Outcome.ok r => if is_equity r then some r else none
  | Outcome.err _ _ => none

/-- The non-equity projection of one outcome (which symbols the loop stores in
`non_equity_tickers`). -/
def non_equity_of : Outcome → Option String
  | Outcome.ok r => if is_equity r then none else some r.key
  | Outcome.err _ _ => none

/-- The failure projection of one outcome (which symbols the loop stores in
`failed_tickers`). -/
def failed_of : Outcome → Option String
  | Outcome.ok _ => none
  | Outcome.err sym _ => some sym

/-- `FinancialDataFetcher.fetch_and_save_ticker_data`, with the remote lookup
as the parameter `lookup`.  It classifies the outcomes; when `equity_data` is
non-empty it normalizes the equity DataFrame and calls `_update_csv_file`
(whose uncaught exception propagates), otherwise the store file is not
touched.  It returns `(equity_data, failed_tickers)` and the resulting file
state. -/
def fetch_and_save_ticker_data (lookup : String → Outcome) (tickers : List String)
    (fs : FileState) : Except String ((List Row × List String) × FileState) :=
  let p := partition_outcomes (tickers.map lookup)
  if p.1.isEmpty then Except.ok ((p.1, p.2.2), fs)
  else
    match update_csv_file (convert_to_numeric_table p.1) fs with
    | Except.ok fs2 => Except.ok ((p.1, p.2.2), fs2)
    | Except.error e => Except.error e

/-- Content of the path named by a `.csv` instruction: a table with a header
row and string-valued cells, or content on which `pd.read_csv` raises
(a missing file raises `FileNotFoundError`, modelled by `none` below). -/
inductive InstrFile where
  | table (header : List String) (rows : List (List String))
  | corrupt (msg : String)
deriving DecidableEq, Repr

/-- `df['Ticker'].tolist()` / `df.iloc[:, 0].tolist()`: the values of column
`i`, one per row. -/
def column_values (i : ℕ) (rows : List (List String)) : List String :=
  rows.map (fun r => r.getD i "")

/-- `FinancialDataFetcher.get_tickers`.  `fsys` is the content found at the
path `user_input` when it names a CSV file (`none` = the file is missing).
The CSV branch catches every reading failure and returns `[]`; the inline
branch splits on commas, strips and uppercases. -/
def get_tickers (user_input : String) (fsys : Option InstrFile) :
    List String × String :=
  if py_endswith_csv user_input then
    match fsys with
    | some (InstrFile.table header rows) =>
        if "Ticker" ∈ header then
          (column_values (List.indexOf "Ticker" header) rows, user_input)
        else (column_values 0 rows, user_input)
    | some (InstrFile.corrupt _) => ([], user_input)
    | none => ([], user_input)
  else
    ((py_split_comma user_input).map (fun t => py_upper (py_strip t)), user_input)

/-- `FinancialDataFetcher.get_financial_data` on an explicit `user_input`:
resolve tickers; when the list is empty return `None` (modelled `none`)
without fetching, otherwise run `fetch_and_save_ticker_data` on the resolved
tickers. -/
def get_financial_data (lookup : String → Outcome) (user_input : String)
    (fsys : Option InstrFile) (fs : FileState) :
    Except String (Option (List Row × List String) × FileState) :=
  let t := get_tickers user_input fsys
  if t.1.isEmpty then Except.ok (none, fs)
  else
    match fetch_and_save_ticker_data lookup t.1 fs with
    | Except.ok (res, fs2) => Except.ok (some res, fs2)
    | Except.error e => Except.error e

/-- Numeric coercion failure: the raw cell is null/NaN, or a string on which
the conversion of `pd.to_numeric(·, errors='coerce')` fails. -/
def coercion_fails (v : Value) : Prop :=
  v = Value.absent ∨ ∃ s, v = Value.str s ∧ parse_numeric s = none

theorem convert_to_numeric_table_keys (l : List Row) :
    (convert_to_numeric_table l).map Row.key = l.map Row.key := by
  unfold convert_to_numeric_table
  rw [List.map_map]
  exact List.map_congr_left (fun r _ => rfl)

theorem convert_to_numeric_table_eq_self (l : List Row)
    (h : ∀ r ∈ l, convert_to_numeric r = r) : convert_to_numeric_table l = l := by
  unfold convert_to_numeric_table
  rw [List.map_congr_left h]
  simp

theorem scrub_nonfinite_finite (v : Value) :
    scrub_nonfinite v ≠ Value.posInf ∧ scrub_nonfinite v ≠ Value.negInf := by
  cases v <;> simp [scrub_nonfinite]

theorem merged_rows_key_not_new (existing new_data : List Row) (r : Row)
    (hr : r ∈ (convert_to_numeric_table existing).filter
      (fun r => !(decide (r.key ∈ new_data.map Row.key)))) :
    r.key ∉ new_data.map Row.key := by
  have h := (List.mem_filter.mp hr).2
  simpa using h

/-- Claim C1, as written, is false on the code: when the new rows repeat a
TickerSymbol, `pd.concat` keeps every occurrence, so the written table holds
two rows for that symbol rather than exactly one last-occurrence row.  Here
merging two `AAPL` rows into an existing (empty) table yields a table whose
key column lists `AAPL` twice. -/
theorem merge_duplicate_key_both_rows_kept :
    update_csv_file
        [⟨"AAPL", [("Current Price", Value.num 100)]⟩,
         ⟨"AAPL", [("Current Price", Value.num 150)]⟩]
        (FileState.file (CsvContent.table [])) =
      Except.ok (FileState.file (CsvContent.table
        [⟨"AAPL", [("Current Price", Value.num 100)]⟩,
         ⟨"AAPL", [("Current Price", Value.num 150)]⟩]))
    ∧ (([⟨"AAPL", [("Current Price", Value.num 100)]⟩,
         ⟨"AAPL", [("Current Price", Value.num 150)]⟩] : List Row).map Row.key).count
        "AAPL" = 2 := by
  constructor
  · decide
  · decide

/-- Claim C1 (amended): when the existing table has at most one row per
TickerSymbol and the new rows' TickerSymbols are pairwise distinct, the merged
table written by `_update_csv_file` again has at most one row per
TickerSymbol; and for a TickerSymbol that occurs among the new rows, the
merged table holds exactly as many rows for it as the new rows do — every
occurrence is retained, not just the last. -/
theorem merge_nodup_keys_and_occurrences_retained
    (existing new_data : List Row)
    (h1 : (existing.map Row.key).Nodup) (h2 : (new_data.map Row.key).Nodup) :
    update_csv_file new_data (FileState.file (CsvContent.table existing)) =
      Except.ok (FileState.file (CsvContent.table (merged_rows new_data existing)))
    ∧ ((merged_rows new_data existing).map Row.key).Nodup
    ∧ ∀ s ∈ new_data.map Row.key,
        ((merged_rows new_data existing).map Row.key).count s
          = (new_data.map Row.key).count s := by
  refine ⟨rfl, ?_, ?_⟩
  · unfold merged_rows
    rw [List.map_append]
    refine List.Nodup.append ?_ h2 ?_
    · have hsub :
          List.Sublist
            (((convert_to_numeric_table existing).filter
              (fun r => !(decide (r.key ∈ new_data.map Row.key)))).map Row.key)
            ((convert_to_numeric_table existing).map Row.key) :=
        (List.filter_sublist _).map Row.key
      rw [convert_to_numeric_table_keys] at hsub
      exact h1.sublist hsub
    · intro a ha hb
      obtain ⟨r, hr, rfl⟩ := List.mem_map.mp ha
      exact merged_rows_key_not_new existing new_data r hr hb
  · intro s hs
    unfold merged_rows
    rw [List.map_append, List.count_append]
    have hzero : s ∉ ((convert_to_numeric_table existing).filter
        (fun r => !(decide (r.key ∈ new_data.map Row.key)))).map Row.key := by
      intro hmem
      obtain ⟨r, hr, rfl⟩ := List.mem_map.mp hmem
      exact merged_rows_key_not_new existing new_data r hr hs
    rw [List.count_eq_zero.mpr hzero, Nat.zero_add]

theorem merge_nodup_keys_and_occurrences_retained_witness :
    ((([⟨"MSFT", [("Current Price", Value.num 300)]⟩] : List Row).map Row.key).Nodup
      ∧ (([⟨"AAPL", [("Current Price", Value.num 150)]⟩] : List Row).map Row.key).Nodup)
    ∧ ((merged_rows [⟨"AAPL", [("Current Price", Value.num 150)]⟩]
          [⟨"MSFT", [("Current Price", Value.num 300)]⟩]).map Row.key).Nodup :=
  ⟨⟨by decide, by decide⟩,
   (merge_nodup_keys_and_occurrences_retained
      [⟨"MSFT", [("Current Price", Value.num 300)]⟩]
      [⟨"AAPL", [("Current Price", Value.num 150)]⟩]
      (by decide) (by decide)).2.1⟩

/-- Claim C2: merging new rows into an existing parsed table writes back
exactly the existing rows whose key is absent from the new rows' keys — each
unchanged (the existing rows of a persisted table are already normalized, so
the defensive re-normalization is the identity on them) — followed, in that
order, by all the new rows. -/
theorem merge_preserves_untouched_rows
    (existing new_data : List Row) (hne : new_data ≠ [])
    (hnorm : ∀ r ∈ existing, convert_to_numeric r = r) :
    update_csv_file new_data (FileState.file (CsvContent.table existing)) =
      Except.ok (FileState.file (CsvContent.table
        (existing.filter (fun r => !(decide (r.key ∈ new_data.map Row.key)))
          ++ new_data))) := by
  have : merged_rows new_data existing =
      existing.filter (fun r => !(decide (r.key ∈ new_data.map Row.key))) ++ new_data := by
    unfold merged_rows
    rw [convert_to_numeric_table_eq_self existing hnorm]
  simp [update_csv_file, this]

theorem merge_preserves_untouched_rows_witness :
    (([⟨"AAPL", [("Current Price", Value.num 150)]⟩] : List Row) ≠ []
      ∧ ∀ r ∈ ([⟨"MSFT", [("Current Price", Value.num 300)]⟩,
                ⟨"AAPL", [("Current Price", Value.num 100)]⟩] : List Row),
          convert_to_numeric r = r)
    ∧ update_csv_file [⟨"AAPL", [("Current Price", Value.num 150)]⟩]
        (FileState.file (CsvContent.table
          [⟨"MSFT", [("Current Price", Value.num 300)]⟩,
           ⟨"AAPL", [("Current Price", Value.num 100)]⟩])) =
      Except.ok (FileState.file (CsvContent.table
        [⟨"MSFT", [("Current Price", Value.num 300)]⟩,
         ⟨"AAPL", [("Current Price", Value.num 150)]⟩])) :=
  ⟨⟨by decide, by decide⟩,
   (merge_preserves_untouched_rows
      [⟨"MSFT", [("Current Price", Value.num 300)]⟩,
       ⟨"AAPL", [("Current Price", Value.num 100)]⟩]
      [⟨"AAPL", [("Current Price", Value.num 150)]⟩]
      (by decide) (by decide)).trans (by decide)⟩

/-- Claim C3: when the store file exists but cannot be parsed, the merge call
raises the parse error (it is not swallowed) and never produces a written
file state — the existing content persists. -/
theorem corrupt_store_raises_without_write (new_data : List Row) (msg : String) :
    update_csv_file new_data (FileState.file (CsvContent.corrupt msg)) = Except.error msg
    ∧ ∀ fs2, update_csv_file new_data (FileState.file (CsvContent.corrupt msg))
        ≠ Except.ok fs2 :=
  ⟨rfl, fun _ c => Except.noConfusion c⟩

/-- Claim C4: for every column in the fixed `numeric_columns` list,
normalization coerces the raw cell and yields "absent" (NaN) when the
coercion fails (null, or a string that does not convert); a cell holding
positive or negative infinity also yields "absent"; and in a loaded existing
table, after the defensive re-normalization pass no numeric column holds an
infinity. -/
theorem numeric_normalization_absent_on_failure
    (n : String) (v : Value) (hn : n ∈ numeric_columns) :
    (coercion_fails v → convert_entry (n, v) = (n, Value.absent))
    ∧ ((v = Value.posInf ∨ v = Value.negInf) →
        convert_entry (n, v) = (n, Value.absent))
    ∧ ∀ (rows : List Row) (r : Row), r ∈ convert_to_numeric_table rows →
        ∀ w, (n, w) ∈ r.fields → w ≠ Value.posInf ∧ w ≠ Value.negInf := by
  refine ⟨?_, ?_, ?_⟩
  · intro hf
    rcases hf with h | ⟨s, rfl, hp⟩
    · subst h
      simp [convert_entry, hn, to_numeric_value, scrub_nonfinite]
    · simp [convert_entry, hn, to_numeric_value, hp, scrub_nonfinite]
  · rintro (rfl | rfl) <;>
      simp [convert_entry, hn, to_numeric_value, scrub_nonfinite]
  · intro rows r hr w hw
    obtain ⟨r0, _, rfl⟩ := List.mem_map.mp hr
    have hw' : (n, w) ∈ r0.fields.map convert_entry := hw
    obtain ⟨e, _, heq⟩ := List.mem_map.mp hw'
    rcases e with ⟨en, ev⟩
    by_cases hmem : en ∈ numeric_columns
    · simp only [convert_entry, if_pos hmem] at heq
      injection heq with h1 h2
      subst h2
      exact scrub_nonfinite_finite (to_numeric_value ev)
    · simp only [convert_entry, if_neg hmem] at heq
      injection heq with h1 h2
      exact absurd (h1 ▸ hn) hmem

theorem numeric_normalization_absent_on_failure_witness :
    ("EPS" ∈ numeric_columns)
    ∧ convert_entry ("EPS", Value.posInf) = ("EPS", Value.absent) :=
  ⟨by decide,
   (numeric_normalization_absent_on_failure "EPS" Value.posInf (by decide)).2.1
     (Or.inl rfl)⟩

/-- Claim C5, as written, is false on the code: the file branch of
`get_tickers` returns the column values as read, without uppercasing, so a
table file listing the symbol `aapl` resolves to the sequence `["aapl"]`,
which is not uppercase. -/
theorem csv_branch_not_uppercased :
    get_tickers "t.csv" (some (InstrFile.table ["Ticker"] [["aapl"]]))
      = (["aapl"], "t.csv")
    ∧ py_upper "aapl" ≠ "aapl" := by
  constructor
  · decide
  · decide

/-- Claim C5 (amended): only the inline branch normalizes case — an
instruction that does not name a `.csv` file resolves by splitting on `,`,
trimming whitespace, and uppercasing each token, preserving input order; the
file branch returns the designated column's values as-is. -/
theorem inline_resolution_split_strip_upper
    (user_input : String) (fsys : Option InstrFile)
    (h : py_endswith_csv user_input = false) :
    get_tickers user_input fsys =
      ((py_split_comma user_input).map (fun t => py_upper (py_strip t)),
        user_input) := by
  simp [get_tickers, h]

theorem inline_resolution_split_strip_upper_witness :
    (py_endswith_csv "AAPL, msft" = false)
    ∧ get_tickers "AAPL, msft" none = (["AAPL", "MSFT"], "AAPL, msft") :=
  ⟨by decide,
   (inline_resolution_split_strip_upper "AAPL, msft" none (by decide)).trans
     (by decide)⟩

theorem partition_outcomes_eq_filterMap (os : List Outcome) :
    partition_outcomes os =
      (os.filterMap equity_of, os.filterMap non_equity_of,
        os.filterMap failed_of) := by
  induction os with
  | nil => rfl
  | cons o rest ih =>
      cases o with
      | err sym msg =>
          simp [partition_outcomes, equity_of, non_equity_of, failed_of, ih]
      | ok r =>
          by_cases h : is_equity r
          · simp [partition_outcomes, equity_of, non_equity_of, failed_of, ih, h]
          · simp [partition_outcomes, equity_of, non_equity_of, failed_of, ih, h]

/-- Claim C6: the classification loop sends to `equity_data` exactly the
records whose "Security Type" field equals "EQUITY", to `failed_tickers`
exactly the Error-tagged outcomes, and to `non_equity_tickers` everything
else, each in input order; the three parts are disjoint (each outcome lands
in exactly one, so the lengths add up to the input length). -/
theorem partition_classification (os : List Outcome) :
    partition_outcomes os =
      (os.filterMap equity_of, os.filterMap non_equity_of,
        os.filterMap failed_of)
    ∧ (partition_outcomes os).1.length + (partition_outcomes os).2.1.length
        + (partition_outcomes os).2.2.length = os.length := by
  refine ⟨partition_outcomes_eq_filterMap os, ?_⟩
  induction os with
  | nil => rfl
  | cons o rest ih =>
      cases o with
      | err sym msg =>
          simp only [partition_outcomes, List.length_cons]
          omega
      | ok r =>
          by_cases h : is_equity r <;>
            simp only [partition_outcomes, h, if_true, if_false,
              List.length_cons, Bool.false_eq_true, ite_false, ite_true] <;>
            omega

theorem filterMap_nil_of_none {α β : Type} (f : α → Option β) (l : List α)
    (h : ∀ a ∈ l, f a = none) : l.filterMap f = [] := by
  induction l with
  | nil => rfl
  | cons a t ih =>
      rw [List.filterMap_cons, h a (by simp)]
      exact ih (fun x hx => h x (by simp [hx]))

/-- Claim C7: when no file exists at the store path, the merge writes the new
rows directly as a new table. -/
theorem bootstrap_writes_new_rows (new_data : List Row) (hne : new_data ≠ []) :
    update_csv_file new_data FileState.missing =
      Except.ok (FileState.file (CsvContent.table new_data)) := rfl

theorem bootstrap_writes_new_rows_witness :
    (([⟨"AAPL", [("Security Type", Value.str "EQUITY")]⟩] : List Row) ≠ [])
    ∧ update_csv_file [⟨"AAPL", [("Security Type", Value.str "EQUITY")]⟩]
        FileState.missing =
      Except.ok (FileState.file (CsvContent.table
        [⟨"AAPL", [("Security Type", Value.str "EQUITY")]⟩])) :=
  ⟨by decide, bootstrap_writes_new_rows _ (by decide)⟩

/-- Claim C8: when the instruction names a `.csv` file that is missing or
cannot be parsed, the resolver catches the failure and returns the empty
symbol sequence, and the caller `get_financial_data` then returns without
fetching anything and without touching the store. -/
theorem malformed_source_resolves_empty_no_op
    (user_input : String) (h : py_endswith_csv user_input = true)
    (fsys : Option InstrFile)
    (h2 : fsys = none ∨ ∃ msg, fsys = some (InstrFile.corrupt msg))
    (lookup : String → Outcome) (fs : FileState) :
    get_tickers user_input fsys = ([], user_input)
    ∧ get_financial_data lookup user_input fsys fs = Except.ok (none, fs) := by
  have hg : get_tickers user_input fsys = ([], user_input) := by
    rcases h2 with rfl | ⟨msg, rfl⟩
    · simp [get_tickers, h]
    · simp [get_tickers, h]
  refine ⟨hg, ?_⟩
  simp [get_financial_data, hg]

theorem malformed_source_resolves_empty_no_op_witness :
    (py_endswith_csv "missing.csv" = true
      ∧ ((none : Option InstrFile) = none
          ∨ ∃ msg, (none : Option InstrFile) = some (InstrFile.corrupt msg)))
    ∧ (get_tickers "missing.csv" none = ([], "missing.csv")
        ∧ get_financial_data (fun s => Outcome.err s "x") "missing.csv" none
            FileState.missing = Except.ok (none, FileState.missing)) :=
  ⟨⟨by decide, Or.inl rfl⟩,
   malformed_source_resolves_empty_no_op "missing.csv" (by decide) none
     (Or.inl rfl) (fun s => Outcome.err s "x") FileState.missing⟩

/-- Claim C9: when no outcome of the batch is classified as equity (every
outcome is non-equity or failed), `fetch_and_save_ticker_data` never calls
`_update_csv_file` — it returns with the store file state exactly as it
was. -/
theorem no_equity_leaves_store_untouched
    (lookup : String → Outcome) (tickers : List String) (fs : FileState)
    (h : ∀ t ∈ tickers, equity_of (lookup t) = none) :
    fetch_and_save_ticker_data lookup tickers fs =
      Except.ok (([], (partition_outcomes (tickers.map lookup)).2.2), fs) := by
  have hnil : (partition_outcomes (tickers.map lookup)).1 = [] := by
    rw [partition_outcomes_eq_filterMap]
    exact filterMap_nil_of_none _ _ (fun o ho => by
      obtain ⟨t, ht, rfl⟩ := List.mem_map.mp ho
      exact h t ht)
  simp [fetch_and_save_ticker_data, hnil]

theorem no_equity_leaves_store_untouched_witness :
    (∀ t ∈ ["C"], equity_of ((fun s => Outcome.err s "boom") t) = none)
    ∧ fetch_and_save_ticker_data (fun s => Outcome.err s "boom") ["C"]
        (FileState.file (CsvContent.table [])) =
      Except.ok
        (([], (partition_outcomes (["C"].map (fun s => Outcome.err s "boom"))).2.2),
          FileState.file (CsvContent.table [])) :=
  ⟨by decide,
   no_equity_leaves_store_untouched (fun s => Outcome.err s "boom") ["C"]
     (FileState.file (CsvContent.table [])) (by decide)⟩

/-- Claim C10: resolving the empty-string instruction yields the one-element
sequence containing the empty string (Python `''.split(',')` is `['']`), not
the empty sequence; so the caller's emptiness guard does not fire and
`get_financial_data` proceeds to look up the empty symbol. -/
theorem empty_instruction_singleton_empty_symbol
    (fsys : Option InstrFile) (lookup : String → Outcome) (fs : FileState) :
    get_tickers "" fsys = ([""], "")
    ∧ get_financial_data lookup "" fsys fs =
        (match fetch_and_save_ticker_data lookup [""] fs with
         | Except.ok (res, fs2) => Except.ok (some res, fs2)
         | Except.error e => Except.error e) := by
  have hc : py_endswith_csv "" = false := by decide
  have hg : get_tickers "" fsys = ([""], "") := by
    simp only [get_tickers, hc, Bool.false_eq_true, if_false]
    decide
  refine ⟨hg, ?_⟩
  simp [get_financial_data, hg]
